import Mathlib

/-!
A shallow embedding of the carpark sample's core:

* `ParkingDatabase` and its operations follow `mocks.py` (`ParkingDatabase`):
  the occupancy set, capacity, temperature, activity log, and the
  update-signal hook (`trigger_update` / `_update_display`).
* `refresh` and the formatting helpers follow `main.py`
  (`CarparkDisplayManager.refresh`).
* `register_listener` / the event forwarding follow `main.py`
  (`CarSensorSimulator`).

Wall-clock time is injected as an explicit `Tm` argument wherever the Python
code calls `time.localtime()`.  The two I/O side effects that matter to the
spec — appending to the activity log and invoking the update-signal
callback — are modelled as state: the log is a list of formatted strings and
the callback invocations are ghost counters (`signals` counts calls of
`trigger_update`, `callback_calls` counts actual invocations of the wired
`_update_display` callback).
-/

/-- A wall-clock time of day, as produced by `time.localtime()` and consumed
by `time.strftime('%H:%M:%S', ...)`. -/
structure Tm where
  hour : Nat
  min : Nat
  sec : Nat
deriving DecidableEq

/-- Two-digit zero padding, as in `strftime` fields. -/
def pad2 (n : Nat) : String :=
  if n < 10 then "0" ++ toString n else toString n

/-- `time.strftime('%H:%M:%S', t)`. -/
def strftimeHMS (t : Tm) : String :=
  pad2 t.hour ++ ":" ++ pad2 t.min ++ ":" ++ pad2 t.sec

/-- The state of `ParkingDatabase` (mocks.py).  `signals` and
`callback_calls` are ghost counters recording the side-effect history of
`trigger_update`; `update_display` records whether the `_update_display`
callback has been wired (it is `None` at construction). -/
structure ParkingDatabase where
  total_spaces : Nat
  occupied : Finset String
  temperature : Rat
  update_display : Bool
  activity_log : List String
  signals : Nat
  callback_calls : Nat
deriving DecidableEq

/-- `available_spaces` property: `self._total_spaces - len(self._occupied)`
(Python integer subtraction, hence `Int`). -/
def available_spaces (db : ParkingDatabase) : Int :=
  (db.total_spaces : Int) - (db.occupied.card : Int)

/-- `log_activity`: formats `"[HH:MM:SS] {message}"` and appends it to the
activity log.  The `print` and the optional GUI log callback are pure I/O and
are not part of the state the spec talks about. -/
def log_activity (db : ParkingDatabase) (now : Tm) (message : String) :
    ParkingDatabase :=
  { db with activity_log :=
      db.activity_log ++ ["[" ++ strftimeHMS now ++ "] " ++ message] }

/-- `trigger_update`: `if self._update_display: self._update_display()`.
Every call bumps the `signals` ghost counter; the callback counter is bumped
only when the callback is wired. -/
def trigger_update (db : ParkingDatabase) : ParkingDatabase :=
  { db with
      signals := db.signals + 1,
      callback_calls :=
        db.callback_calls + (if db.update_display then 1 else 0) }

/-- `incoming_car` (mocks.py lines 41-47).  Python's `if plate and ...`
treats the empty string as falsy, and the single `else` branch logs the
"parking is full" message. -/
def incoming_car (db : ParkingDatabase) (now : Tm) (plate : String) :
    ParkingDatabase :=
  if plate ≠ "" ∧ db.occupied.card < db.total_spaces then
    let db1 := { db with occupied := insert plate db.occupied }
    trigger_update (log_activity db1 now
      ("Car " ++ plate ++ " entered. Available spaces: " ++
        toString (available_spaces db1)))
  else
    log_activity db now
      ("Car " ++ plate ++ " attempted to enter but parking is full.")

/-- `outgoing_car` (mocks.py lines 49-55). -/
def outgoing_car (db : ParkingDatabase) (now : Tm) (plate : String) :
    ParkingDatabase :=
  if plate ∈ db.occupied then
    let db1 := { db with occupied := db.occupied.erase plate }
    trigger_update (log_activity db1 now
      ("Car " ++ plate ++ " exited. Available spaces: " ++
        toString (available_spaces db1)))
  else
    log_activity db now
      ("Car " ++ plate ++ " attempted to exit but was not found.")

/-- Python's `{x:.1f}` fixed-point formatting, for values that are exact
multiples of a tenth (the only values the verified scenarios use; for such
values no rounding is involved). -/
def formatFixed1 (q : Rat) : String :=
  let n : Int := q.num * 10 / (q.den : Int)
  let a := n.natAbs
  (if n < 0 then "-" else "") ++ toString (a / 10) ++ "." ++ toString (a % 10)

/-- `temperature_reading` (mocks.py lines 57-60): unconditionally stores the
temperature, logs with `°C`, signals an update. -/
def temperature_reading (db : ParkingDatabase) (now : Tm) (temp : Rat) :
    ParkingDatabase :=
  trigger_update (log_activity { db with temperature := temp } now
    ("Temperature updated to " ++ formatFixed1 temp ++ "°C"))

/-- `reset_parking` (mocks.py lines 62-66). -/
def reset_parking (db : ParkingDatabase) (now : Tm) : ParkingDatabase :=
  trigger_update (log_activity
    { db with occupied := ∅, temperature := 20 } now
    "Parking system reset. All spaces cleared and temperature set to 20.0°C.")

/-- The freshly constructed database (`ParkingDatabase.__init__`):
capacity 100, empty occupancy, temperature 20.0, no callback wired yet. -/
def initialState : ParkingDatabase :=
  { total_spaces := 100
    occupied := ∅
    temperature := 20
    update_display := false
    activity_log := []
    signals := 0
    callback_calls := 0 }

/-- Runs a sequence of `incoming_car` calls (each with its wall-clock
moment). -/
def runIncoming (db : ParkingDatabase) : List (Tm × String) → ParkingDatabase
  | [] => db
  | c :: cs => runIncoming (incoming_car db c.1 c.2) cs

/-- Python's `{n:03d}`: minimum width 3, zero padded after the sign. -/
def format03d (n : Int) : String :=
  let sign := if n < 0 then "-" else ""
  let digits := toString n.natAbs
  sign ++ String.mk (List.replicate (3 - (sign.length + digits.length)) '0')
    ++ digits

/-- The three formatted values one display refresh delivers
(`CarparkDisplayManager.refresh`, main.py lines 90-109). -/
structure DisplayValues where
  available_bays : String
  temperature : String
  time : String
deriving DecidableEq

/-- One display refresh: the refresh loop only calls `refresh` when a
provider is attached, and `refresh` itself returns without updating when the
window no longer exists; otherwise it delivers the three formatted values.
Note main.py formats the temperature with the single character `℃`
(U+2103), not `°C`. -/
def refresh (provider_attached windowOpen : Bool) (db : ParkingDatabase)
    (now : Tm) : Option DisplayValues :=
  if provider_attached ∧ windowOpen then
    some { available_bays := format03d (available_spaces db)
           temperature := formatFixed1 db.temperature ++ "℃"
           time := strftimeHMS now }
  else
    none

/-- Modelled from the spec: the `interfaces` module (with
`CarparkSensorListener` and `CarparkDataProvider`) is not among the sources.
Per the spec, registration requires the capability set
`incoming_car`/`outgoing_car`/`temperature_reading`, while `reset_parking`
is optional and capability-checked per call, so a listener is modelled by an
identity and its two capability flags: `is_sensor_listener` models
`isinstance(listener, CarparkSensorListener)` and `has_reset_parking` models
`hasattr(listener, 'reset_parking')`. -/
structure Listener where
  id : Nat
  is_sensor_listener : Bool
  has_reset_parking : Bool
deriving DecidableEq

/-- The listener list owned by `CarSensorSimulator` (main.py). -/
structure CarSensorSimulator where
  listeners : List Listener
deriving DecidableEq

/-- `register_listener` (main.py lines 179-182): appends only when the
`isinstance` capability check passes. -/
def register_listener (sim : CarSensorSimulator) (l : Listener) :
    CarSensorSimulator :=
  if l.is_sensor_listener then { listeners := sim.listeners ++ [l] } else sim

/-- The four simulated sensor events emitted by `CarSensorSimulator`. -/
inductive SensorEvent where
  | carIn (plate : String)
  | carOut (plate : String)
  | temperature (temp : Rat)
  | reset
deriving DecidableEq

/-- The ordered list of listeners an emitted event reaches (`_car_in`,
`_car_out`, `_on_temp_change`, `_reset`, main.py lines 184-207): every
registered listener for car/temperature events, but `_reset` skips listeners
without a `reset_parking` attribute. -/
def notified (sim : CarSensorSimulator) : SensorEvent → List Listener
  | .carIn _ => sim.listeners
  | .carOut _ => sim.listeners
  | .temperature _ => sim.listeners
  | .reset => sim.listeners.filter (fun l => l.has_reset_parking)

/-- Runs a sequence of `register_listener` calls. -/
def registerAll (sim : CarSensorSimulator) : List Listener → CarSensorSimulator
  | [] => sim
  | l :: ls => registerAll (register_listener sim l) ls

/-- Registration starting from the freshly constructed simulator (whose
listener list is empty). -/
def regListeners (ls : List Listener) : CarSensorSimulator :=
  registerAll ⟨[]⟩ ls

/-- A concrete database state whose lot holds the single plate `"A"`, with
the update-signal callback wired. -/
def dbWithA : ParkingDatabase :=
  { total_spaces := 100
    occupied := {"A"}
    temperature := 20
    update_display := true
    activity_log := []
    signals := 0
    callback_calls := 0 }

/-- What a rejected `incoming_car` on a full lot does: state untouched, no
signal, exactly the rejection entry appended (whose text contains
"attempted to enter but parking is full."). -/
def fullLotSpec (db : ParkingDatabase) (now : Tm) (plate : String) : Prop :=
  (incoming_car db now plate).occupied = db.occupied ∧
  available_spaces (incoming_car db now plate) = available_spaces db ∧
  (incoming_car db now plate).temperature = db.temperature ∧
  (incoming_car db now plate).signals = db.signals ∧
  (incoming_car db now plate).callback_calls = db.callback_calls ∧
  (incoming_car db now plate).activity_log =
    db.activity_log ++
      ["[" ++ strftimeHMS now ++ "] " ++
        ("Car " ++ plate ++ " attempted to enter but parking is full.")] ∧
  ∃ pre : String,
    "[" ++ strftimeHMS now ++ "] " ++
        ("Car " ++ plate ++ " attempted to enter but parking is full.") =
      pre ++ "attempted to enter but parking is full."

/-- What a repeated `incoming_car` for an already-parked plate does on a
non-full lot: the idempotent insert leaves the set untouched but the success
path still runs (success log entry, update signal). -/
def reentrySpec (db : ParkingDatabase) (now : Tm) (plate : String) : Prop :=
  (incoming_car db now plate).occupied = db.occupied ∧
  available_spaces (incoming_car db now plate) = available_spaces db ∧
  (incoming_car db now plate).signals = db.signals + 1 ∧
  (incoming_car db now plate).callback_calls =
    db.callback_calls + (if db.update_display then 1 else 0) ∧
  (incoming_car db now plate).activity_log =
    db.activity_log ++
      ["[" ++ strftimeHMS now ++ "] " ++
        ("Car " ++ plate ++ " entered. Available spaces: " ++
          toString (available_spaces db))]

/-- What `outgoing_car` does for a plate that is not parked: state
untouched, no signal, exactly the not-found entry appended (whose text
contains "attempted to exit but was not found."). -/
def outgoingMissSpec (db : ParkingDatabase) (now : Tm) (plate : String) : Prop :=
  (outgoing_car db now plate).occupied = db.occupied ∧
  available_spaces (outgoing_car db now plate) = available_spaces db ∧
  (outgoing_car db now plate).signals = db.signals ∧
  (outgoing_car db now plate).callback_calls = db.callback_calls ∧
  (outgoing_car db now plate).activity_log =
    db.activity_log ++
      ["[" ++ strftimeHMS now ++ "] " ++
        ("Car " ++ plate ++ " attempted to exit but was not found.")] ∧
  ∃ pre : String,
    "[" ++ strftimeHMS now ++ "] " ++
        ("Car " ++ plate ++ " attempted to exit but was not found.") =
      pre ++ "attempted to exit but was not found."

/-- What `outgoing_car` does for a parked plate: removes it, appends the
exit entry (quoting the new availability), signals an update. -/
def outgoingHitSpec (db : ParkingDatabase) (now : Tm) (plate : String) : Prop :=
  (outgoing_car db now plate).occupied = db.occupied.erase plate ∧
  (outgoing_car db now plate).signals = db.signals + 1 ∧
  (outgoing_car db now plate).callback_calls =
    db.callback_calls + (if db.update_display then 1 else 0) ∧
  (outgoing_car db now plate).activity_log =
    db.activity_log ++
      ["[" ++ strftimeHMS now ++ "] " ++
        ("Car " ++ plate ++ " exited. Available spaces: " ++
          toString ((db.total_spaces : Int) -
            ((db.occupied.erase plate).card : Int)))]

/-- What a mutating call with success condition `succ` guarantees about its
side-effect bookkeeping: exactly one log entry whether it succeeds or is
rejected, exactly one update signal on the success path and none on the
rejection path, the wiring flag untouched, and the callback fired exactly
once when the call succeeds with the callback wired and never otherwise. -/
def mutOnce (db db' : ParkingDatabase) (succ : Prop) [Decidable succ] : Prop :=
  db'.activity_log.length = db.activity_log.length + 1 ∧
  db'.signals = db.signals + (if succ then 1 else 0) ∧
  db'.update_display = db.update_display ∧
  db'.callback_calls =
    db.callback_calls +
      (if succ then (if db.update_display then 1 else 0) else 0)

/-! ## Helper lemmas -/

/-- One `incoming_car` call preserves the occupancy bound and the
capacity. -/
theorem incoming_car_card_le (db : ParkingDatabase) (now : Tm) (plate : String)
    (h : db.occupied.card ≤ db.total_spaces) :
    (incoming_car db now plate).occupied.card ≤
        (incoming_car db now plate).total_spaces ∧
      (incoming_car db now plate).total_spaces = db.total_spaces := by
  unfold incoming_car
  split_ifs with hc
  · refine ⟨?_, rfl⟩
    show (insert plate db.occupied).card ≤ db.total_spaces
    exact le_trans (Finset.card_insert_le _ _) hc.2
  · exact ⟨h, rfl⟩

/-- Any run of `incoming_car` calls preserves the occupancy bound and the
capacity. -/
theorem runIncoming_card_le (calls : List (Tm × String)) :
    ∀ db : ParkingDatabase, db.occupied.card ≤ db.total_spaces →
      (runIncoming db calls).occupied.card ≤
          (runIncoming db calls).total_spaces ∧
        (runIncoming db calls).total_spaces = db.total_spaces := by
  induction calls with
  | nil => exact fun db h => ⟨h, rfl⟩
  | cons c cs ih =>
    intro db h
    have h1 := incoming_car_card_le db c.1 c.2 h
    have h2 := ih (incoming_car db c.1 c.2) h1.1
    exact ⟨h2.1, h2.2.trans h1.2⟩

/-- Listener registration appends exactly the capability-checked listeners,
in call order. -/
theorem registerAll_listeners (ls : List Listener) :
    ∀ sim : CarSensorSimulator,
      (registerAll sim ls).listeners =
        sim.listeners ++ ls.filter (fun l => l.is_sensor_listener) := by
  induction ls with
  | nil => intro sim; simp [registerAll]
  | cons l ls ih =>
    intro sim
    show (registerAll (register_listener sim l) ls).listeners = _
    rw [ih]
    unfold register_listener
    by_cases hl : l.is_sensor_listener <;> simp [hl, List.filter_cons]

/-! ## Claim theorems -/

/-- C1: starting from the initial state (capacity 100, empty occupancy),
no sequence of `incoming_car` calls ever pushes the occupied set past the
capacity, and `available_spaces` stays nonnegative; since every prefix of a
sequence is itself a sequence, this holds at every intermediate point. -/
theorem c1_occupancy_never_exceeds_capacity (calls : List (Tm × String)) :
    (runIncoming initialState calls).occupied.card ≤ 100 ∧
      0 ≤ available_spaces (runIncoming initialState calls) := by
  have h := runIncoming_card_le calls initialState (by decide)
  have htot : (runIncoming initialState calls).total_spaces = 100 := h.2
  have hcard : (runIncoming initialState calls).occupied.card ≤ 100 :=
    htot ▸ h.1
  refine ⟨hcard, ?_⟩
  unfold available_spaces
  omega

/-- C4: every mutating call (`incoming_car`, `outgoing_car`,
`temperature_reading`, `reset_parking`), accepted or rejected, appends
exactly one activity-log entry; it signals exactly one update on its
success path (the guard of `incoming_car`, membership for `outgoing_car`,
unconditionally for the always-successful `temperature_reading` and
`reset_parking`) and none on a rejection, and the update-signal callback
fires exactly once per successful call when it is wired and never
otherwise. -/
theorem c4_one_log_entry_at_most_one_signal (db : ParkingDatabase) (now : Tm)
    (plate : String) (temp : Rat) :
    mutOnce db (incoming_car db now plate)
        (plate ≠ "" ∧ db.occupied.card < db.total_spaces) ∧
      mutOnce db (outgoing_car db now plate) (plate ∈ db.occupied) ∧
      mutOnce db (temperature_reading db now temp) True ∧
      mutOnce db (reset_parking db now) True := by
  refine ⟨?_, ?_, ?_, ?_⟩
  · unfold incoming_car mutOnce
    split_ifs with hc <;> simp_all [trigger_update, log_activity]
  · unfold outgoing_car mutOnce
    split_ifs with hc <;> simp_all [trigger_update, log_activity]
  · unfold temperature_reading mutOnce trigger_update log_activity
    simp
  · unfold reset_parking mutOnce trigger_update log_activity
    simp

/-- C5: after `reset_parking` in any state, the occupied set is empty (so
`available_spaces` equals the capacity), the temperature is back to 20.0,
exactly one log entry was appended, and an update was signalled (reaching
the callback when it is wired). -/
theorem c5_reset_restores_defaults (db : ParkingDatabase) (now : Tm) :
    available_spaces (reset_parking db now) = (db.total_spaces : Int) ∧
      (reset_parking db now).occupied = ∅ ∧
      (reset_parking db now).temperature = 20 ∧
      (reset_parking db now).activity_log.length =
        db.activity_log.length + 1 ∧
      (reset_parking db now).signals = db.signals + 1 ∧
      (reset_parking db now).callback_calls =
        db.callback_calls + (if db.update_display then 1 else 0) := by
  unfold reset_parking trigger_update log_activity available_spaces
  simp

/-- C10: `incoming_car` with the empty plate is rejected in every state
(Python's `if plate and ...` treats `""` as falsy): nothing changes, no
update is signalled, and the single appended log entry carries the full-lot
message "Car  attempted to enter but parking is full." even when the lot
has free spaces. -/
theorem c10_empty_plate_rejected_with_full_message (db : ParkingDatabase)
    (now : Tm) :
    (incoming_car db now "").occupied = db.occupied ∧
      available_spaces (incoming_car db now "") = available_spaces db ∧
      (incoming_car db now "").temperature = db.temperature ∧
      (incoming_car db now "").signals = db.signals ∧
      (incoming_car db now "").callback_calls = db.callback_calls ∧
      (incoming_car db now "").activity_log =
        db.activity_log ++
          ["[" ++ strftimeHMS now ++ "] " ++
            "Car  attempted to enter but parking is full."] := by
  have hcond : ¬(("" : String) ≠ "" ∧ db.occupied.card < db.total_spaces) := by
    simp
  unfold incoming_car
  rw [if_neg hcond]
  refine ⟨rfl, rfl, rfl, rfl, rfl, ?_⟩
  unfold log_activity
  have hmsg :
      ("Car " ++ "" ++ " attempted to enter but parking is full." : String) =
        "Car  attempted to enter but parking is full." := by decide
  rw [hmsg]

/-- C2 (amended): for every state and every plate `p` that is not currently
parked, `incoming_car(p)` followed immediately by `outgoing_car(p)` restores
`available_spaces` to its prior value.  (For a plate that is already parked
the pair frees one space instead — see the counterexample.) -/
theorem c2_enter_exit_roundtrip (db : ParkingDatabase) (t1 t2 : Tm)
    (plate : String) (h : plate ∉ db.occupied) :
    available_spaces (outgoing_car (incoming_car db t1 plate) t2 plate) =
      available_spaces db := by
  by_cases hc : plate ≠ "" ∧ db.occupied.card < db.total_spaces
  · simp only [incoming_car, if_pos hc, outgoing_car, trigger_update,
      log_activity, available_spaces]
    simp [Finset.mem_insert_self, Finset.erase_insert h]
  · simp only [incoming_car, if_neg hc, outgoing_car, log_activity,
      available_spaces]
    simp [h]

/-- C2 witness: the roundtrip restores availability when the plate was not
parked before. -/
theorem c2_enter_exit_roundtrip_witness :
    ("A" : String) ∉ initialState.occupied ∧
      available_spaces
          (outgoing_car (incoming_car initialState ⟨0, 0, 0⟩ "A") ⟨0, 0, 0⟩
            "A") =
        available_spaces initialState :=
  ⟨by decide,
    c2_enter_exit_roundtrip initialState ⟨0, 0, 0⟩ ⟨0, 0, 0⟩ "A" (by decide)⟩

/-- C2 counterexample: for a plate that is already parked the claim fails.
With `"A"` parked (available 99), `incoming_car("A")` is an idempotent
insert and `outgoing_car("A")` then removes it, leaving available 100. -/
theorem c2_counterexample :
    available_spaces
        (outgoing_car
          (incoming_car (incoming_car initialState ⟨0, 0, 0⟩ "A") ⟨0, 0, 0⟩
            "A") ⟨0, 0, 0⟩ "A") ≠
      available_spaces (incoming_car initialState ⟨0, 0, 0⟩ "A") := by decide

/-- C3: when the lot is full, `incoming_car` changes nothing (occupancy,
availability, temperature), does not signal, and appends exactly the
rejection entry, whose text contains "attempted to enter but parking is
full.". -/
theorem c3_full_lot_rejection (db : ParkingDatabase) (now : Tm)
    (plate : String) (h : db.occupied.card = db.total_spaces) :
    fullLotSpec db now plate := by
  have hcond : ¬(plate ≠ "" ∧ db.occupied.card < db.total_spaces) := by
    rintro ⟨-, hlt⟩
    omega
  unfold fullLotSpec incoming_car
  rw [if_neg hcond]
  refine ⟨rfl, rfl, rfl, rfl, rfl, rfl, ?_⟩
  refine ⟨"[" ++ strftimeHMS now ++ "] " ++ ("Car " ++ plate ++ " "), ?_⟩
  have hsplit :
      (" attempted to enter but parking is full." : String) =
        " " ++ "attempted to enter but parking is full." := by decide
  rw [hsplit]
  simp [String.append_assoc]

/-- C3 witness: a concretely full one-space lot rejects the next car. -/
theorem c3_full_lot_rejection_witness :
    ({ total_spaces := 1, occupied := {"A"}, temperature := 20,
       update_display := true, activity_log := [], signals := 0,
       callback_calls := 0 } : ParkingDatabase).occupied.card =
        ({ total_spaces := 1, occupied := {"A"}, temperature := 20,
           update_display := true, activity_log := [], signals := 0,
           callback_calls := 0 } : ParkingDatabase).total_spaces ∧
      fullLotSpec
        { total_spaces := 1, occupied := {"A"}, temperature := 20,
          update_display := true, activity_log := [], signals := 0,
          callback_calls := 0 } ⟨8, 30, 0⟩ "XYZ999" :=
  ⟨by decide,
    c3_full_lot_rejection
      { total_spaces := 1, occupied := {"A"}, temperature := 20,
        update_display := true, activity_log := [], signals := 0,
        callback_calls := 0 } ⟨8, 30, 0⟩ "XYZ999" (by decide)⟩

/-- C6: re-entering a plate that is already parked (non-empty plate,
non-full lot) leaves the occupied set and availability unchanged, yet runs
the success path: it appends the "entered" entry and signals an update. -/
theorem c6_idempotent_reentry (db : ParkingDatabase) (now : Tm)
    (plate : String) (h1 : plate ≠ "") (h2 : plate ∈ db.occupied)
    (h3 : db.occupied.card < db.total_spaces) :
    reentrySpec db now plate := by
  have hins : insert plate db.occupied = db.occupied :=
    Finset.insert_eq_self.mpr h2
  unfold reentrySpec incoming_car
  rw [if_pos ⟨h1, h3⟩]
  unfold trigger_update log_activity available_spaces
  rw [hins]
  exact ⟨rfl, rfl, rfl, rfl, rfl⟩

/-- C6 witness: re-entering `"A"` while it is parked in `dbWithA`. -/
theorem c6_idempotent_reentry_witness :
    ("A" : String) ≠ "" ∧
      ("A" : String) ∈ dbWithA.occupied ∧
      dbWithA.occupied.card < dbWithA.total_spaces ∧
      reentrySpec dbWithA ⟨9, 0, 0⟩ "A" :=
  ⟨by decide, by decide, by decide,
    c6_idempotent_reentry dbWithA ⟨9, 0, 0⟩ "A" (by decide) (by decide)
      (by decide)⟩

/-- C7: `outgoing_car` for an unparked plate is a logged no-op (not-found
entry, no signal); for a parked plate it removes the plate, appends the
"exited" entry quoting the new availability, and signals an update. -/
theorem c7_outgoing_car_cases (db : ParkingDatabase) (now : Tm)
    (plate : String) :
    (plate ∉ db.occupied → outgoingMissSpec db now plate) ∧
      (plate ∈ db.occupied → outgoingHitSpec db now plate) := by
  constructor
  · intro h
    unfold outgoingMissSpec outgoing_car
    rw [if_neg h]
    refine ⟨rfl, rfl, rfl, rfl, rfl, ?_⟩
    refine ⟨"[" ++ strftimeHMS now ++ "] " ++ ("Car " ++ plate ++ " "), ?_⟩
    have hsplit :
        (" attempted to exit but was not found." : String) =
          " " ++ "attempted to exit but was not found." := by decide
    rw [hsplit]
    simp [String.append_assoc]
  · intro h
    unfold outgoingHitSpec outgoing_car
    rw [if_pos h]
    unfold trigger_update log_activity available_spaces
    exact ⟨rfl, rfl, rfl, rfl⟩

/-- C7 witness: the not-found branch on the empty lot and the removal
branch on a lot holding `"A"`. -/
theorem c7_outgoing_car_cases_witness :
    outgoingMissSpec initialState ⟨0, 0, 0⟩ "NOTPARKED" ∧
      outgoingHitSpec dbWithA ⟨0, 0, 0⟩ "A" :=
  ⟨(c7_outgoing_car_cases initialState ⟨0, 0, 0⟩ "NOTPARKED").1 (by decide),
    (c7_outgoing_car_cases dbWithA ⟨0, 0, 0⟩ "A").2 (by decide)⟩

/-- C8 (amended): whenever a data source is attached and the window is
open, a refresh delivers exactly the three values — availability as a
3-digit zero-padded integer, the temperature to one decimal place suffixed
with the degree-Celsius sign `℃` (U+2103, as main.py writes it), and the
clock formatted HH:MM:SS; in particular `temperature_reading(-5.0)` yields
the displayed value "-5.0℃" with no rejection, and the spec scenario
`incoming_car("ABC123")` from the initial state displays "099". -/
theorem c8_refresh_delivers_formatted_values (db : ParkingDatabase)
    (now : Tm) :
    refresh true true db now =
        some
          { available_bays := format03d (available_spaces db)
            temperature := formatFixed1 db.temperature ++ "℃"
            time := strftimeHMS now } ∧
      refresh true true (temperature_reading db now (-5)) now =
        some
          { available_bays := format03d (available_spaces db)
            temperature := "-5.0℃"
            time := strftimeHMS now } ∧
      refresh true true (incoming_car initialState ⟨0, 0, 0⟩ "ABC123")
          ⟨1, 2, 3⟩ =
        some { available_bays := "099", temperature := "20.0℃",
               time := "01:02:03" } := by
  refine ⟨by simp [refresh], ?_, by decide⟩
  have h5 : formatFixed1 (-5 : Rat) = "-5.0" := by decide
  simp [refresh, temperature_reading, trigger_update, log_activity,
    available_spaces, h5]

/-- C8 counterexample: the delivered temperature string for
`temperature_reading(-5.0)` is "-5.0℃" (with U+2103), which is not the
string "-5.0°C" the claim names. -/
theorem c8_counterexample :
    (refresh true true (temperature_reading initialState ⟨0, 0, 0⟩ (-5))
          ⟨1, 2, 3⟩).map DisplayValues.temperature =
        some "-5.0℃" ∧
      (refresh true true (temperature_reading initialState ⟨0, 0, 0⟩ (-5))
          ⟨1, 2, 3⟩).map DisplayValues.temperature ≠
        some "-5.0°C" := by
  constructor
  · decide
  · decide

/-- C9 (amended): registration keeps exactly the capability-checked
listeners in call order with no deduplication, and car-in, car-out and
temperature events are forwarded to every registered listener in that
order; a reset event is forwarded, still in registration order, to exactly
those registered listeners that provide `reset_parking`. -/
theorem c9_notification_order (ls : List Listener) :
    (regListeners ls).listeners =
        ls.filter (fun l => l.is_sensor_listener) ∧
      (∀ p, notified (regListeners ls) (SensorEvent.carIn p) =
          (regListeners ls).listeners) ∧
      (∀ p, notified (regListeners ls) (SensorEvent.carOut p) =
          (regListeners ls).listeners) ∧
      (∀ t, notified (regListeners ls) (SensorEvent.temperature t) =
          (regListeners ls).listeners) ∧
      notified (regListeners ls) SensorEvent.reset =
        (regListeners ls).listeners.filter (fun l => l.has_reset_parking) := by
  refine ⟨?_, fun p => rfl, fun p => rfl, fun t => rfl, rfl⟩
  have h := registerAll_listeners ls ⟨[]⟩
  simpa [regListeners] using h

/-- C9 counterexample: a listener that passes the `isinstance` registration
check but has no `reset_parking` attribute is registered, yet a reset event
is not forwarded to it. -/
theorem c9_counterexample :
    (⟨0, true, false⟩ : Listener) ∈
        (register_listener ⟨[]⟩ ⟨0, true, false⟩).listeners ∧
      (⟨0, true, false⟩ : Listener) ∉
        notified (register_listener ⟨[]⟩ ⟨0, true, false⟩)
          SensorEvent.reset := by decide
